import Mathlib

/-
Verification development for the LinkedIn profile scraper (src/scraper.py).

The embedding models:
  * Python dicts (string-keyed, insertion-ordered, update-in-place) as
    association lists with the operations dget / dinsert;
  * the parsed BeautifulSoup document as a record carrying exactly the
    pieces the extractors query (header text nodes, contact links, and the
    four section item lists);
  * the LinkedInScraper methods scrape_profile (lines 109-261) and
    scrape_profiles_from_excel (lines 286-345) as pure functions over an
    explicit environment describing what the browser/session would do:
    whether login succeeds, whether navigation plus the page-readiness wait
    succeeds, whether the second page_source read faults mid-pipeline, and
    the two document snapshots (before and after section expansion);
  * a raised Python exception as Except.error.
scrape_profile also emits a trace of pipeline steps so that ordering
properties can be stated.
-/

namespace Scraper

/-- An ordered string-keyed association list standing for a Python dict
whose values are strings. -/
abbrev Dict := List (String × String)

/-- Python dict lookup: first (and, for dicts, only) binding of the key. -/
def dget {α : Type} (d : List (String × α)) (k : String) : Option α :=
  match d with
  | [] => none
  | p :: rest => if p.1 = k then some p.2 else dget rest k

/-- Python dict assignment d[k] = v: replaces the binding in place if the
key is present, otherwise appends it (insertion order is preserved). -/
def dinsert {α : Type} (d : List (String × α)) (k : String) (v : α) :
    List (String × α) :=
  match d with
  | [] => [(k, v)]
  | p :: rest => if p.1 = k then (k, v) :: rest else p :: dinsert rest k v

/-- Substring occurrence on character lists: some suffix of the haystack
starts with the needle. -/
def subList (needle : List Char) : List Char → Bool
  | [] => needle.isEmpty
  | c :: t => needle.isPrefixOf (c :: t) || subList needle t

/-- Python's `sub in s` substring test. -/
def strContains (s sub : String) : Bool :=
  subList sub.data s.data

/-- Python str.lower() on the profile strings (ASCII case mapping). -/
def pyLower (s : String) : String :=
  String.mk (s.data.map Char.toLower)

/-- Python str.strip(): drops leading and trailing whitespace. -/
def pyStrip (s : String) : String :=
  String.mk (((s.data.dropWhile Char.isWhitespace).reverse.dropWhile Char.isWhitespace).reverse)

/-- JSON string escaping for the characters json.dumps escapes in the
profile strings (quote, backslash, and common control characters). -/
def jsonEscapeChar (c : Char) : String :=
  if c = '"' then "\\\""
  else if c = '\\' then "\\\\"
  else if c = '\n' then "\\n"
  else if c = '\t' then "\\t"
  else if c = '\r' then "\\r"
  else String.singleton c

/-- A JSON string literal. -/
def jsonStr (s : String) : String :=
  "\"" ++ String.join (s.data.map jsonEscapeChar) ++ "\""

/-- json.dumps for a str-to-str Python dict (line 315): comma-space
separated "key": "value" pairs between braces. -/
def json_dumps (d : Dict) : String :=
  "\x7b" ++ String.intercalate ", " (d.map (fun p => jsonStr p.1 ++ ": " ++ jsonStr p.2)) ++ "\x7d"

/-- A value stored in the profile_data dict: a string or a nested dict. -/
inductive V where
  | s : String → V
  | d : Dict → V
deriving DecidableEq

/-- The profile_data dict (string keys, string or dict values). -/
abbrev Record := List (String × V)

/-- An anchor element in the contact-info region: its visible text
(get_text()) and its href attribute, absent when the anchor has no href
(link.get("href") returning None, line 169). -/
structure Link where
  text : String
  href : Option String
deriving DecidableEq

/-- One li.pv-entity__position-group-pager item: the stripped text of its
secondary-title (company) and primary-title (role) nodes when present
(lines 195-196). -/
structure ExperienceItem where
  company : Option String
  role : Option String
deriving DecidableEq

/-- One li.pv-education-entity item: school name (required) and degree
text (optional), lines 211-212. -/
structure EducationItem where
  school : Option String
  degree : Option String
deriving DecidableEq

/-- One li.pv-certification-entity item: certification name and issuer,
lines 227-228. -/
structure CertItem where
  certName : Option String
  issuer : Option String
deriving DecidableEq

/-- One li.pv-accomplishment-entity item: title (required) and
description (optional), lines 243-244. -/
structure ProjectItem where
  title : Option String
  description : Option String
deriving DecidableEq

/-- A parsed document snapshot, carrying exactly the query results the
extractors read from the soup: the two top-card text nodes, the
contact-info anchors, and the four section item lists (a section is absent
when its select_one query finds no element). -/
structure Soup where
  nameText : Option String
  bioText : Option String
  contactLinks : List Link
  experienceSection : Option (List ExperienceItem)
  educationSection : Option (List EducationItem)
  certificationsSection : Option (List CertItem)
  projectsSection : Option (List ProjectItem)
deriving DecidableEq

/-- Pipeline steps, for stating ordering properties of scrape_profile. -/
inductive Step where
  | login
  | navigateWait
  | parse1
  | exName
  | exBio
  | exSocials
  | expand
  | parse2
  | exExperience
  | exEducation
  | exCertifications
  | exProjects
deriving DecidableEq

/-- The environment of one scrape_profile call: whether login would
succeed if attempted, whether navigation and the page-readiness wait
succeed, whether the second page_source read raises mid-pipeline, and the
document snapshots before and after section expansion. -/
structure ScrapeEnv where
  loginSucceeds : Bool
  pageLoads : Bool
  midFault : Bool
  soup1 : Soup
  soup2 : Soup
deriving DecidableEq

/-- Classification of one contact-info anchor (lines 170-179): the if/elif
chain over case-insensitive substrings of the href, first match wins;
platform labels store the stripped link text, Website stores the raw href;
an unmatched link contributes nothing. -/
def classifyLink (socials : Dict) (link_text link_url : String) : Dict :=
  if strContains (pyLower link_url) "twitter" then dinsert socials "Twitter" (pyStrip link_text)
  else if strContains (pyLower link_url) "github" then dinsert socials "GitHub" (pyStrip link_text)
  else if strContains (pyLower link_url) "facebook" then dinsert socials "Facebook" (pyStrip link_text)
  else if strContains (pyLower link_url) "instagram" then dinsert socials "Instagram" (pyStrip link_text)
  else if strContains (pyLower link_url) "website" || strContains (pyLower link_url) "portfolio" then
    dinsert socials "Website" link_url
  else socials

/-- The social-link loop (lines 166-181). The loop mutates the Socials
dict in place; when an anchor has no href, link_url.lower() raises
AttributeError, the surrounding except stops the loop, and the entries
already inserted remain. Returns the dict reached and whether the loop
was aborted by such a failure. -/
def extractSocials (links : List Link) (socials : Dict) : Dict × Bool :=
  match links with
  | [] => (socials, false)
  | link :: rest =>
    match link.href with
    | none => (socials, true)
    | some url => extractSocials rest (classifyLink socials link.text url)

/-- The experience loop (lines 193-201): an item contributes
d[company] = role only when both title nodes are present. -/
def expFold (items : List ExperienceItem) (d : Dict) : Dict :=
  match items with
  | [] => d
  | it :: rest =>
    match it.company, it.role with
    | some c, some r => expFold rest (dinsert d (pyStrip c) (pyStrip r))
    | _, _ => expFold rest d

/-- The education loop (lines 209-217): the school is required, the
degree defaults to the empty string when its node is absent. -/
def eduFold (items : List EducationItem) (d : Dict) : Dict :=
  match items with
  | [] => d
  | it :: rest =>
    match it.school with
    | some sc =>
      eduFold rest (dinsert d (pyStrip sc) (match it.degree with
        | some dg => pyStrip dg
        | none => ""))
    | none => eduFold rest d

/-- The certifications loop (lines 225-233): both the certification name
and the issuer are required; the dict is keyed by issuer with the
certification name as value. -/
def certFold (items : List CertItem) (d : Dict) : Dict :=
  match items with
  | [] => d
  | it :: rest =>
    match it.certName, it.issuer with
    | some n, some i => certFold rest (dinsert d (pyStrip i) (pyStrip n))
    | _, _ => certFold rest d

/-- The projects loop (lines 241-249): the title is required, the
description defaults to the empty string when its node is absent. -/
def projFold (items : List ProjectItem) (d : Dict) : Dict :=
  match items with
  | [] => d
  | it :: rest =>
    match it.title with
    | some t =>
      projFold rest (dinsert d (pyStrip t) (match it.description with
        | some ds => pyStrip ds
        | none => ""))
    | none => projFold rest d

/-- The profile_data dict as initialized at lines 122-131. -/
def initRecord (profile_url : String) : Record :=
  [("LinkedIn URL", V.s profile_url), ("Name", V.s ""), ("Bio", V.s ""),
   ("Socials", V.d []), ("Experience", V.d []), ("Education", V.d []),
   ("Certifications", V.d []), ("Projects", V.d [])]

/-- A profile_data dict with the eight fields bound to given values, in
the initialization order. -/
def mkRecord (url n b : String) (so ex ed ce pr : Dict) : Record :=
  [("LinkedIn URL", V.s url), ("Name", V.s n), ("Bio", V.s b),
   ("Socials", V.d so), ("Experience", V.d ex), ("Education", V.d ed),
   ("Certifications", V.d ce), ("Projects", V.d pr)]

/-- Reads the nested dict stored under a key of profile_data (the object
the source mutates in place); the empty-dict default is unreachable for
records built from initRecord. -/
def getMap (pd : Record) (k : String) : Dict :=
  match dget pd k with
  | some (V.d m) => m
  | _ => []

/-- Lines 148-181: the extractions run against the first parse — name
(149-154), bio (157-162), and the social-link loop (164-181), whose
in-place mutation of the Socials dict is modelled by reading the nested
dict and writing the reached dict back. -/
def phase1 (pd : Record) (s : Soup) : Record :=
  let pd1 := match s.nameText with
    | some t => dinsert pd "Name" (V.s (pyStrip t))
    | none => pd
  let pd2 := match s.bioText with
    | some t => dinsert pd1 "Bio" (V.s (pyStrip t))
    | none => pd1
  dinsert pd2 "Socials" (V.d (extractSocials s.contactLinks (getMap pd2 "Socials")).1)

/-- Lines 189-251: the extractions run against the re-parsed document —
experience (190-203), education (206-219), certifications (222-235) and
projects (238-251); each section is skipped when select_one found no
section element. -/
def phase2 (pd : Record) (s : Soup) : Record :=
  let pd1 := match s.experienceSection with
    | some items => dinsert pd "Experience" (V.d (expFold items (getMap pd "Experience")))
    | none => pd
  let pd2 := match s.educationSection with
    | some items => dinsert pd1 "Education" (V.d (eduFold items (getMap pd1 "Education")))
    | none => pd1
  let pd3 := match s.certificationsSection with
    | some items => dinsert pd2 "Certifications" (V.d (certFold items (getMap pd2 "Certifications")))
    | none => pd2
  match s.projectsSection with
  | some items => dinsert pd3 "Projects" (V.d (projFold items (getMap pd3 "Projects")))
  | none => pd3

/-- Result of one scrape_profile call: the returned record or a raised
exception, the is_logged_in flag afterwards, and the trace of pipeline
steps reached. -/
abbrev ScrapeResult := Except Unit Record × Bool × List Step

/-- scrape_profile (lines 109-261). The lazy login at lines 119-120 sits
outside the try/except, so a login failure raises to the caller; once past
it, every failure is absorbed: a navigation/readiness failure (lines
135-143) returns the freshly initialized record via the handlers at lines
256-261, a fault at the second page_source read (line 187) returns the
record as left by the first-parse extractions, and otherwise the
re-parsed document is fed to the remaining extractors and the full record
is returned. -/
def scrape_profile_run (is_logged_in : Bool) (env : ScrapeEnv) (profile_url : String) :
    ScrapeResult :=
  if !is_logged_in && !env.loginSucceeds then (Except.error (), false, [Step.login])
  else
    let tr0 : List Step := if is_logged_in then [] else [Step.login]
    let pd0 := initRecord profile_url
    if !env.pageLoads then (Except.ok pd0, true, tr0 ++ [Step.navigateWait])
    else
      let pd1 := phase1 pd0 env.soup1
      let tr1 := tr0 ++ [Step.navigateWait, Step.parse1, Step.exName, Step.exBio,
        Step.exSocials, Step.expand]
      if env.midFault then (Except.ok pd1, true, tr1)
      else
        (Except.ok (phase2 pd1 env.soup2), true,
         tr1 ++ [Step.parse2, Step.exExperience, Step.exEducation,
           Step.exCertifications, Step.exProjects])

/-- The CSV row written for a successfully returned record (lines
313-318): the five dict-valued fields are serialized with json.dumps, the
string fields pass through. -/
def fieldToCsv (v : V) : String :=
  match v with
  | V.s str => str
  | V.d m => json_dumps m

/-- writer.writerow of a returned record after the json.dumps conversion
of its dict-valued fields. -/
def rowOfRecord (r : Record) : List (String × String) :=
  r.map (fun p => (p.1, fieldToCsv p.2))

/-- The fallback row written for a failed identifier (lines 326-337). -/
def empty_data (url : String) : List (String × String) :=
  [("LinkedIn URL", url), ("Name", ""), ("Bio", ""), ("Socials", "\x7b\x7d"),
   ("Experience", "\x7b\x7d"), ("Education", "\x7b\x7d"),
   ("Certifications", "\x7b\x7d"), ("Projects", "\x7b\x7d")]

/-- The row written for one identifier: the serialized record when
scrape_profile returned (lines 313-318), the empty_data fallback when it
raised (lines 323-337). -/
def rowFor (res : Except Unit Record) (url : String) : List (String × String) :=
  match res with
  | Except.ok r => rowOfRecord r
  | Except.error _ => empty_data url

/-- The per-identifier loop of scrape_profiles_from_excel (lines 308-337):
each identifier is paired with its call environment; scrape_profile is
invoked, a successful return is serialized and written, and any raised
exception is caught and the empty_data row written instead. Returns the
rows in writing order and the final is_logged_in flag. -/
def scrape_profiles_from_excel (is_logged_in : Bool) :
    List (String × ScrapeEnv) → List (List (String × String)) × Bool
  | [] => ([], is_logged_in)
  | (url, env) :: rest =>
    let res := scrape_profile_run is_logged_in env url
    let row := rowFor res.1 url
    let tail := scrape_profiles_from_excel res.2.1 rest
    (row :: tail.1, tail.2)

/-- The is_logged_in flag after a prefix of the batch has been processed. -/
def loginStateAfter (is_logged_in : Bool) : List (String × ScrapeEnv) → Bool
  | [] => is_logged_in
  | (url, env) :: rest => loginStateAfter (scrape_profile_run is_logged_in env url).2.1 rest

/-- The Name value extracted from a snapshot (lines 149-154). -/
def nameOf (s : Soup) : String :=
  match s.nameText with
  | some t => pyStrip t
  | none => ""

/-- The Bio value extracted from a snapshot (lines 157-162). -/
def bioOf (s : Soup) : String :=
  match s.bioText with
  | some t => pyStrip t
  | none => ""

/-- The Socials dict extracted from a snapshot (lines 164-181). -/
def socialsOf (s : Soup) : Dict :=
  (extractSocials s.contactLinks []).1

/-- The Experience dict extracted from a snapshot (lines 190-203). -/
def expOf (s : Soup) : Dict :=
  match s.experienceSection with
  | some items => expFold items []
  | none => []

/-- The Education dict extracted from a snapshot (lines 206-219). -/
def eduOf (s : Soup) : Dict :=
  match s.educationSection with
  | some items => eduFold items []
  | none => []

/-- The Certifications dict extracted from a snapshot (lines 222-235). -/
def certOf (s : Soup) : Dict :=
  match s.certificationsSection with
  | some items => certFold items []
  | none => []

/-- The Projects dict extracted from a snapshot (lines 238-251). -/
def projOf (s : Soup) : Dict :=
  match s.projectsSection with
  | some items => projFold items []
  | none => []

/-- The record scrape_profile returns once past the session check, as a
function of the environment alone. -/
def bodyResult (env : ScrapeEnv) (profile_url : String) : Record :=
  if !env.pageLoads then initRecord profile_url
  else if env.midFault then phase1 (initRecord profile_url) env.soup1
  else phase2 (phase1 (initRecord profile_url) env.soup1) env.soup2

/-- The (trimmed company, trimmed role) pairs the experience loop inserts,
in document order. -/
def expContribs (items : List ExperienceItem) : List (String × String) :=
  items.filterMap (fun it =>
    match it.company, it.role with
    | some c, some r => some (pyStrip c, pyStrip r)
    | _, _ => none)

/-- Modelled from the spec: the value of the last entry of the list
carrying the given key, the duplicate-key policy the spec states for the
output mappings. -/
def lastSeenValue (l : List (String × String)) (k : String) : Option String :=
  (l.reverse.find? (fun p => p.1 == k)).map Prod.snd

/-- A record is structurally complete when it has exactly the eight
fields, in initialization order, with string values for the first three
and dict values for the remaining five. -/
def structurallyComplete (r : Record) : Bool :=
  match r with
  | [(k0, V.s _), (k1, V.s _), (k2, V.s _), (k3, V.d _), (k4, V.d _),
     (k5, V.d _), (k6, V.d _), (k7, V.d _)] =>
    k0 == "LinkedIn URL" && k1 == "Name" && k2 == "Bio" && k3 == "Socials" &&
    k4 == "Experience" && k5 == "Education" && k6 == "Certifications" && k7 == "Projects"
  | _ => false

/-! ### Concrete inputs used by witnesses and counterexamples -/

/-- A profile page with nothing extractable. -/
def soupEmpty : Soup := ⟨none, none, [], none, none, none, none⟩

/-- An environment whose login attempt fails. -/
def envLoginFail : ScrapeEnv := ⟨false, true, false, soupEmpty, soupEmpty⟩

/-- An environment where login succeeds but the profile page never
reaches the readiness marker. -/
def envNoPage : ScrapeEnv := ⟨true, false, false, soupEmpty, soupEmpty⟩

/-- Contact links whose second anchor has no href: the social-link loop
inserts the GitHub entry and then raises. -/
def linksFail : List Link := [⟨"gh", some "https://github.com/a"⟩, ⟨"x", none⟩]

/-- A first snapshot carrying the failing contact links. -/
def soupLinks : Soup := ⟨none, none, linksFail, none, none, none, none⟩

/-- A second snapshot carrying one experience entry. -/
def soupSections : Soup := ⟨none, none, [], some [⟨some " Acme ", some "Dev"⟩], none, none, none⟩

/-- An environment whose social-link loop fails mid-way while the later
sections are extractable. -/
def envC4w : ScrapeEnv := ⟨true, true, false, soupLinks, soupSections⟩

/-- A pre-expansion snapshot whose header name reads A. -/
def soupNameA : Soup := ⟨some "A", none, [], none, none, none, none⟩

/-- A post-expansion snapshot whose header name reads B. -/
def soupNameB : Soup := ⟨some "B", none, [], none, none, none, none⟩

/-- An environment whose name node changes between the two parses. -/
def envPreExpansion : ScrapeEnv := ⟨true, true, false, soupNameA, soupNameB⟩

/-! ### Dictionary lemmas -/

theorem dget_dinsert_self {α : Type} (d : List (String × α)) (k : String) (v : α) :
    dget (dinsert d k v) k = some v := by
  induction d with
  | nil => simp [dinsert, dget]
  | cons p rest ih =>
    by_cases h : p.1 = k
    · simp [dinsert, dget, h]
    · simp [dinsert, dget, h, ih]

theorem dget_dinsert_ne {α : Type} (d : List (String × α)) (k k' : String) (v : α)
    (h : k' ≠ k) : dget (dinsert d k v) k' = dget d k' := by
  have hk : ¬ k = k' := fun hh => h hh.symm
  induction d with
  | nil => simp [dinsert, dget, hk]
  | cons p rest ih =>
    by_cases hp : p.1 = k
    · have hp' : ¬ p.1 = k' := by rw [hp]; exact hk
      simp [dinsert, dget, hp, hp', hk]
    · by_cases hp' : p.1 = k'
      · simp [dinsert, dget, hp, hp', hk, h]
      · simp [dinsert, dget, hp, hp', ih]

/-! ### Path characterization of scrape_profile -/

/-- The first-parse extraction phase, applied to the fresh record, yields
the record with Name, Bio and Socials bound to the snapshot's extracted
values and the other fields still at their defaults. -/
theorem phase1_init (url : String) (s : Soup) :
    phase1 (initRecord url) s =
      mkRecord url (nameOf s) (bioOf s) (socialsOf s) [] [] [] [] := by
  cases s with
  | mk nt bt cl es ed ce pr =>
    cases nt <;> cases bt <;> rfl

/-- The second-parse extraction phase binds the four section fields to the
snapshot's extracted values and leaves the first-phase fields unchanged. -/
theorem phase2_mk (url n b : String) (so : Dict) (s : Soup) :
    phase2 (mkRecord url n b so [] [] [] []) s =
      mkRecord url n b so (expOf s) (eduOf s) (certOf s) (projOf s) := by
  cases s with
  | mk nt bt cl es ed ce pr =>
    cases es <;> cases ed <;> cases ce <;> cases pr <;> rfl

/-- Once the session check passes, scrape_profile returns the record
determined by the environment alone. -/
theorem scrape_run_ok (l : Bool) (env : ScrapeEnv) (url : String)
    (h : (l || env.loginSucceeds) = true) :
    (scrape_profile_run l env url).1 = Except.ok (bodyResult env url) := by
  cases l with
  | true =>
    cases hp : env.pageLoads with
    | false => simp [scrape_profile_run, bodyResult, hp]
    | true =>
      cases hm : env.midFault with
      | false => simp [scrape_profile_run, bodyResult, hp, hm]
      | true => simp [scrape_profile_run, bodyResult, hp, hm]
  | false =>
    simp at h
    cases hp : env.pageLoads with
    | false => simp [scrape_profile_run, bodyResult, hp, h]
    | true =>
      cases hm : env.midFault with
      | false => simp [scrape_profile_run, bodyResult, hp, hm, h]
      | true => simp [scrape_profile_run, bodyResult, hp, hm, h]

/-- The is_logged_in flag after one call: true exactly when it already was
or the lazy login succeeded. -/
theorem scrape_run_state (l : Bool) (env : ScrapeEnv) (url : String) :
    (scrape_profile_run l env url).2.1 = (l || env.loginSucceeds) := by
  cases l <;> cases hls : env.loginSucceeds <;>
    cases hp : env.pageLoads <;> cases hm : env.midFault <;>
    simp [scrape_profile_run, hls, hp, hm]

/-- Every record scrape_profile returns is the eight-field record shape
for the input identifier. -/
theorem scrape_ok_shape (l : Bool) (env : ScrapeEnv) (url : String) (r : Record)
    (h : (scrape_profile_run l env url).1 = Except.ok r) :
    ∃ n b so ex ed ce pr, r = mkRecord url n b so ex ed ce pr := by
  have hok : (l || env.loginSucceeds) = true := by
    by_contra hc
    simp at hc
    rw [scrape_profile_run] at h
    simp [hc.1, hc.2] at h
  rw [scrape_run_ok l env url hok] at h
  have hr : r = bodyResult env url := by
    cases h
    rfl
  rw [hr, bodyResult]
  cases hp : env.pageLoads with
  | false =>
    exact ⟨"", "", [], [], [], [], [], rfl⟩
  | true =>
    cases hm : env.midFault with
    | true =>
      refine ⟨nameOf env.soup1, bioOf env.soup1, socialsOf env.soup1, [], [], [], [], ?_⟩
      simp [phase1_init]
    | false =>
      refine ⟨nameOf env.soup1, bioOf env.soup1, socialsOf env.soup1,
        expOf env.soup2, eduOf env.soup2, certOf env.soup2, projOf env.soup2, ?_⟩
      simp [phase1_init, phase2_mk]

/-- The full happy-path run: result record and step trace. -/
theorem scrape_run_happy (l : Bool) (env : ScrapeEnv) (url : String)
    (h : (l || env.loginSucceeds) = true) (hp : env.pageLoads = true)
    (hm : env.midFault = false) :
    scrape_profile_run l env url =
      (Except.ok (mkRecord url (nameOf env.soup1) (bioOf env.soup1) (socialsOf env.soup1)
          (expOf env.soup2) (eduOf env.soup2) (certOf env.soup2) (projOf env.soup2)),
       true,
       (if l then [] else [Step.login]) ++
         [Step.navigateWait, Step.parse1, Step.exName, Step.exBio, Step.exSocials,
          Step.expand, Step.parse2, Step.exExperience, Step.exEducation,
          Step.exCertifications, Step.exProjects]) := by
  cases l with
  | true =>
    simp [scrape_profile_run, hp, hm, phase1_init, phase2_mk]
  | false =>
    simp at h
    simp [scrape_profile_run, hp, hm, h, phase1_init, phase2_mk]

/-! ### Fold lemmas for the section extractors -/

theorem expFold_append (xs ys : List ExperienceItem) (d : Dict) :
    expFold (xs ++ ys) d = expFold ys (expFold xs d) := by
  induction xs generalizing d with
  | nil => rfl
  | cons it rest ih =>
    cases it with
    | mk c r => cases c <;> cases r <;> simp [expFold, ih]

theorem eduFold_append (xs ys : List EducationItem) (d : Dict) :
    eduFold (xs ++ ys) d = eduFold ys (eduFold xs d) := by
  induction xs generalizing d with
  | nil => rfl
  | cons it rest ih =>
    cases it with
    | mk sc dg => cases sc <;> cases dg <;> simp [eduFold, ih]

theorem certFold_append (xs ys : List CertItem) (d : Dict) :
    certFold (xs ++ ys) d = certFold ys (certFold xs d) := by
  induction xs generalizing d with
  | nil => rfl
  | cons it rest ih =>
    cases it with
    | mk n i => cases n <;> cases i <;> simp [certFold, ih]

theorem projFold_append (xs ys : List ProjectItem) (d : Dict) :
    projFold (xs ++ ys) d = projFold ys (projFold xs d) := by
  induction xs generalizing d with
  | nil => rfl
  | cons it rest ih =>
    cases it with
    | mk t ds => cases t <;> cases ds <;> simp [projFold, ih]

/-- The experience loop is the left fold of dict assignment over its
contributed pairs. -/
theorem expFold_eq_foldl (items : List ExperienceItem) (d : Dict) :
    expFold items d = (expContribs items).foldl (fun acc p => dinsert acc p.1 p.2) d := by
  induction items generalizing d with
  | nil => rfl
  | cons it rest ih =>
    cases it with
    | mk c r => cases c <;> cases r <;> simp [expFold, expContribs, ih]

/-- Looking up a key after left-folding dict assignments: the last
assignment to that key wins, and the initial dict answers otherwise. -/
theorem dget_foldl_dinsert (l : List (String × String)) (d : Dict) (k : String) :
    dget (l.foldl (fun acc p => dinsert acc p.1 p.2) d) k =
      match l.reverse.find? (fun p => p.1 == k) with
      | some p => some p.2
      | none => dget d k := by
  induction l generalizing d with
  | nil => rfl
  | cons p l ih =>
    rw [List.foldl_cons, ih, List.reverse_cons, List.find?_append]
    cases hf : l.reverse.find? (fun q => q.1 == k) with
    | some q => simp [hf]
    | none =>
      by_cases hk : p.1 = k
      · simp [hf, List.find?, hk, dget_dinsert_self]
      · have hkb : (p.1 == k) = false := by
          simp [hk]
        simp [hf, List.find?, hkb, dget_dinsert_ne d p.1 k p.2 (fun hh => hk hh.symm)]

/-! ### Row and batch lemmas -/

theorem dget_rowOfRecord (r : Record) (k : String) :
    dget (rowOfRecord r) k = (dget r k).map fieldToCsv := by
  induction r with
  | nil => rfl
  | cons p rest ih =>
    simp only [rowOfRecord, List.map_cons] at ih ⊢
    by_cases h : p.1 = k <;> simp [dget, h, ih]

theorem batch_length (l : Bool) (items : List (String × ScrapeEnv)) :
    (scrape_profiles_from_excel l items).1.length = items.length := by
  induction items generalizing l with
  | nil => rfl
  | cons x rest ih =>
    cases x with
    | mk url env => simp [scrape_profiles_from_excel, ih]

/-- Unfolding the batch loop by one identifier. -/
theorem batch_cons (l : Bool) (u : String) (e : ScrapeEnv)
    (rest : List (String × ScrapeEnv)) :
    scrape_profiles_from_excel l ((u, e) :: rest) =
      (rowFor (scrape_profile_run l e u).1 u ::
         (scrape_profiles_from_excel (scrape_profile_run l e u).2.1 rest).1,
       (scrape_profiles_from_excel (scrape_profile_run l e u).2.1 rest).2) := rfl

/-- The i-th row the batch writes is determined by the i-th identifier,
its environment, and the login flag reached after the preceding items. -/
theorem batch_row (url : String) (env : ScrapeEnv) :
    ∀ (items : List (String × ScrapeEnv)) (l : Bool) (i : Nat),
    items[i]? = some (url, env) →
    (scrape_profiles_from_excel l items).1[i]? =
      some (rowFor (scrape_profile_run (loginStateAfter l (items.take i)) env url).1 url) := by
  intro items
  induction items with
  | nil => intro l i h; simp at h
  | cons x rest ih =>
    intro l i h
    cases x with
    | mk u0 e0 =>
      cases i with
      | zero =>
        rw [List.getElem?_cons_zero] at h
        have hx : u0 = url ∧ e0 = env := by
          have hpair := Option.some.inj h
          exact ⟨congrArg Prod.fst hpair, congrArg Prod.snd hpair⟩
        obtain ⟨hu, he⟩ := hx
        subst hu; subst he
        rw [batch_cons, List.getElem?_cons_zero]
        rfl
      | succ n =>
        rw [List.getElem?_cons_succ] at h
        rw [batch_cons, List.getElem?_cons_succ]
        exact ih (scrape_profile_run l e0 u0).2.1 n h

/-! ### Claims -/

/-- C1: for every input sequence of identifiers, the batch runner writes
exactly one row per identifier, in input order (the i-th row carries the
i-th identifier), and an identifier whose processing raises yields the
structurally-complete empty_data row for that identifier. -/
theorem c1_one_row_per_identifier :
    ∀ (l : Bool) (items : List (String × ScrapeEnv)),
      ((scrape_profiles_from_excel l items).1.length = items.length)
      ∧ (∀ (i : Nat) (url : String) (env : ScrapeEnv),
          items[i]? = some (url, env) →
          ∃ row, (scrape_profiles_from_excel l items).1[i]? = some row
            ∧ dget row "LinkedIn URL" = some url)
      ∧ (∀ (i : Nat) (url : String) (env : ScrapeEnv),
          items[i]? = some (url, env) →
          (scrape_profile_run (loginStateAfter l (items.take i)) env url).1 = Except.error () →
          (scrape_profiles_from_excel l items).1[i]? = some (empty_data url)) := by
  intro l items
  refine ⟨batch_length l items, ?_, ?_⟩
  · intro i url env h
    refine ⟨rowFor (scrape_profile_run (loginStateAfter l (items.take i)) env url).1 url,
      batch_row url env items l i h, ?_⟩
    cases hres : (scrape_profile_run (loginStateAfter l (items.take i)) env url).1 with
    | ok r =>
      obtain ⟨n, b, so, ex, ed, ce, pr, hr⟩ := scrape_ok_shape _ env url r hres
      rw [rowFor, dget_rowOfRecord, hr]
      rfl
    | error e =>
      cases e
      rw [rowFor]
      rfl
  · intro i url env h herr
    rw [batch_row url env items l i h, herr]
    rfl

/-- C1 witness: a one-identifier batch whose login raises still writes
exactly its empty_data row at position zero. -/
theorem c1_one_row_per_identifier_witness :
    (scrape_profiles_from_excel false [("A", envLoginFail)]).1[0]? = some (empty_data "A") :=
  (c1_one_row_per_identifier false [("A", envLoginFail)]).2.2 0 "A" envLoginFail rfl rfl

/-- C2 counterexample: scrape_profile does raise to its caller — the lazy
login at lines 119-120 sits outside the try/except, so with no session and
a failing login the call raises instead of returning a record. -/
theorem c2_counterexample :
    (scrape_profile_run false envLoginFail "https://linkedin.com/in/x").1 = Except.error () := rfl

/-- C2 amended: once the session check passes (already logged in, or the
lazy login succeeds), scrape_profile never raises; in particular when the
page-readiness wait fails it returns the record populated only with the
identifier, every other field at its empty default. -/
theorem c2_no_raise_after_session_check :
    ∀ (l : Bool) (env : ScrapeEnv) (url : String),
      (l || env.loginSucceeds) = true →
      (∃ r, (scrape_profile_run l env url).1 = Except.ok r)
      ∧ (env.pageLoads = false →
         (scrape_profile_run l env url).1 = Except.ok (mkRecord url "" "" [] [] [] [] [])) := by
  intro l env url h
  constructor
  · exact ⟨bodyResult env url, scrape_run_ok l env url h⟩
  · intro hp
    rw [scrape_run_ok l env url h]
    simp [bodyResult, hp]
    rfl

/-- C2 witness: not yet logged in, login succeeds, page never loads — the
call returns the identifier-only record. -/
theorem c2_no_raise_after_session_check_witness :
    (scrape_profile_run false envNoPage "u").1 = Except.ok (mkRecord "u" "" "" [] [] [] [] []) :=
  (c2_no_raise_after_session_check false envNoPage "u" (by decide)).2 rfl

/-- C3: every record scrape_profile returns has exactly the eight fields
in order, string-valued for LinkedIn URL, Name and Bio and dict-valued for
the five mappings; and the batch runner's failure fallback row equals the
serialization of the all-defaults record. -/
theorem c3_records_structurally_complete :
    (∀ (l : Bool) (env : ScrapeEnv) (url : String) (r : Record),
       (scrape_profile_run l env url).1 = Except.ok r →
       structurallyComplete r = true)
    ∧ (∀ url, empty_data url = rowOfRecord (initRecord url)) := by
  constructor
  · intro l env url r h
    obtain ⟨n, b, so, ex, ed, ce, pr, hr⟩ := scrape_ok_shape l env url r h
    rw [hr]
    rfl
  · intro url
    rfl

/-- C3 witness: the record returned for a page that never loads is
structurally complete. -/
theorem c3_records_structurally_complete_witness :
    structurallyComplete (mkRecord "u" "" "" [] [] [] [] []) = true :=
  c3_records_structurally_complete.1 true envNoPage "u" (mkRecord "u" "" "" [] [] [] [] []) rfl

/-- C4 counterexample: a failure part-way through the social-link loop
does not leave the Socials field empty — the GitHub entry inserted before
the failing anchor is retained in the returned record. -/
theorem c4_counterexample :
    (extractSocials linksFail []).2 = true
    ∧ (scrape_profile_run true envC4w "u").1 =
        Except.ok (mkRecord "u" "" "" [("GitHub", "gh")] [("Acme", "Dev")] [] [] [])
    ∧ ([("GitHub", "gh")] : Dict) ≠ [] :=
  ⟨rfl, rfl, by decide⟩

/-- C4 amended: a failure inside the social-link extractor never
propagates — the remaining field extractors still run against the
refreshed document and their fields are extracted normally — but the
Socials field retains the entries classified before the failure point
(possibly partially populated) rather than being left empty. -/
theorem c4_extractor_failure_isolated :
    ∀ (l : Bool) (env : ScrapeEnv) (url : String),
      (l || env.loginSucceeds) = true → env.pageLoads = true → env.midFault = false →
      (extractSocials env.soup1.contactLinks []).2 = true →
      ∃ r, (scrape_profile_run l env url).1 = Except.ok r
        ∧ dget r "Socials" = some (V.d (socialsOf env.soup1))
        ∧ dget r "Experience" = some (V.d (expOf env.soup2))
        ∧ dget r "Education" = some (V.d (eduOf env.soup2))
        ∧ dget r "Certifications" = some (V.d (certOf env.soup2))
        ∧ dget r "Projects" = some (V.d (projOf env.soup2)) := by
  intro l env url h hp hm _
  have hh := scrape_run_happy l env url h hp hm
  refine ⟨mkRecord url (nameOf env.soup1) (bioOf env.soup1) (socialsOf env.soup1)
      (expOf env.soup2) (eduOf env.soup2) (certOf env.soup2) (projOf env.soup2),
    ?_, rfl, rfl, rfl, rfl, rfl⟩
  rw [hh]

/-- C4 witness: the failing contact links together with extractable later
sections — the theorem applies and the failure hypothesis is discharged
concretely. -/
theorem c4_extractor_failure_isolated_witness :
    ∃ r, (scrape_profile_run true envC4w "u").1 = Except.ok r
      ∧ dget r "Socials" = some (V.d (socialsOf envC4w.soup1))
      ∧ dget r "Experience" = some (V.d (expOf envC4w.soup2))
      ∧ dget r "Education" = some (V.d (eduOf envC4w.soup2))
      ∧ dget r "Certifications" = some (V.d (certOf envC4w.soup2))
      ∧ dget r "Projects" = some (V.d (projOf envC4w.soup2)) :=
  c4_extractor_failure_isolated true envC4w "u" (by decide) rfl rfl rfl

/-- C5 counterexample: re-authentication is attempted mid-batch — after a
first identifier whose login fails, the next identifier's pipeline trace
contains a fresh login attempt instead of failing without one. -/
theorem c5_counterexample :
    (scrape_profile_run false envLoginFail "A").1 = Except.error ()
    ∧ Step.login ∈
        (scrape_profile_run (scrape_profile_run false envLoginFail "A").2.1 envLoginFail "B").2.2 :=
  ⟨rfl, by decide⟩

/-- C5 amended: an authentication failure is never fatal to the run (the
batch still writes one row per identifier); while the session was never
established each identifier re-attempts login at the session-check step
and fails individually; once the session is established, no further login
step occurs and the call returns a record rather than raising. -/
theorem c5_auth_failure_handling :
    (∀ (env : ScrapeEnv) (url : String),
       (scrape_profile_run true env url).2.1 = true
       ∧ Step.login ∉ (scrape_profile_run true env url).2.2
       ∧ (scrape_profile_run true env url).1 ≠ Except.error ())
    ∧ (∀ (env : ScrapeEnv) (url : String),
       env.loginSucceeds = false →
       scrape_profile_run false env url = (Except.error (), false, [Step.login]))
    ∧ (∀ (l : Bool) (items : List (String × ScrapeEnv)),
       (scrape_profiles_from_excel l items).1.length = items.length) := by
  refine ⟨?_, ?_, fun l items => batch_length l items⟩
  · intro env url
    refine ⟨by simp [scrape_run_state], ?_, ?_⟩
    · cases hp : env.pageLoads <;> cases hm : env.midFault <;>
        simp [scrape_profile_run, hp, hm]
    · rw [scrape_run_ok true env url (by simp)]
      simp
  · intro env url hls
    simp [scrape_profile_run, hls]

/-- C5 witness: with a failing login and no session, the call raises and
its trace is exactly the login attempt. -/
theorem c5_auth_failure_handling_witness :
    scrape_profile_run false envLoginFail "B" = (Except.error (), false, [Step.login]) :=
  c5_auth_failure_handling.2.1 envLoginFail "B" rfl

/-- C6 counterexample: the name extractor does not run against the
refreshed post-expansion document — with a pre-expansion name A and a
post-expansion name B, the returned Name is A, and the trace runs the
name/bio/socials extractors before the expand and re-parse steps. -/
theorem c6_counterexample :
    (scrape_profile_run true envPreExpansion "u").1 =
      Except.ok (mkRecord "u" "A" "" [] [] [] [] [])
    ∧ envPreExpansion.soup2.nameText = some "B"
    ∧ ("A" : String) ≠ "B"
    ∧ (scrape_profile_run true envPreExpansion "u").2.2 =
        [Step.navigateWait, Step.parse1, Step.exName, Step.exBio, Step.exSocials,
         Step.expand, Step.parse2, Step.exExperience, Step.exEducation,
         Step.exCertifications, Step.exProjects] :=
  ⟨rfl, rfl, by decide, rfl⟩

/-- C6 amended: the pipeline order is session check, navigate and
synchronize, parse, then the name, bio and socials extractors against the
pre-expansion snapshot, then expand, re-parse, and the experience,
education, certifications and projects extractors against the refreshed
snapshot, all merged into one record. -/
theorem c6_pipeline_order :
    ∀ (l : Bool) (env : ScrapeEnv) (url : String),
      (l || env.loginSucceeds) = true → env.pageLoads = true → env.midFault = false →
      scrape_profile_run l env url =
        (Except.ok (mkRecord url (nameOf env.soup1) (bioOf env.soup1) (socialsOf env.soup1)
            (expOf env.soup2) (eduOf env.soup2) (certOf env.soup2) (projOf env.soup2)),
         true,
         (if l then [] else [Step.login]) ++
           [Step.navigateWait, Step.parse1, Step.exName, Step.exBio, Step.exSocials,
            Step.expand, Step.parse2, Step.exExperience, Step.exEducation,
            Step.exCertifications, Step.exProjects]) :=
  fun l env url h hp hm => scrape_run_happy l env url h hp hm

/-- C6 witness: the full pipeline on a concrete environment. -/
theorem c6_pipeline_order_witness :
    scrape_profile_run true envPreExpansion "u" =
      (Except.ok (mkRecord "u" (nameOf envPreExpansion.soup1) (bioOf envPreExpansion.soup1)
          (socialsOf envPreExpansion.soup1) (expOf envPreExpansion.soup2)
          (eduOf envPreExpansion.soup2) (certOf envPreExpansion.soup2)
          (projOf envPreExpansion.soup2)),
       true,
       (if true then [] else [Step.login]) ++
         [Step.navigateWait, Step.parse1, Step.exName, Step.exBio, Step.exSocials,
          Step.expand, Step.parse2, Step.exExperience, Step.exEducation,
          Step.exCertifications, Step.exProjects]) :=
  c6_pipeline_order true envPreExpansion "u" (by decide) rfl rfl

/-- C7: social-link classification is substring-based on the lowercased
URL, first-match-wins over the ordered labels: a github-only link is
recorded under GitHub with the stripped link text, a website/portfolio
link matching no platform substring is recorded under Website with the
raw URL, a link matching no known substring contributes nothing, and the
loop folds this per-link step over the anchors. -/
theorem c7_social_link_classification :
    ∀ (socials : Dict) (link_text link_url : String),
      (strContains (pyLower link_url) "github" = true →
       strContains (pyLower link_url) "twitter" = false →
       strContains (pyLower link_url) "facebook" = false →
       strContains (pyLower link_url) "instagram" = false →
       strContains (pyLower link_url) "website" = false →
       strContains (pyLower link_url) "portfolio" = false →
       classifyLink socials link_text link_url = dinsert socials "GitHub" (pyStrip link_text))
    ∧ ((strContains (pyLower link_url) "website" = true ∨
        strContains (pyLower link_url) "portfolio" = true) →
       strContains (pyLower link_url) "twitter" = false →
       strContains (pyLower link_url) "github" = false →
       strContains (pyLower link_url) "facebook" = false →
       strContains (pyLower link_url) "instagram" = false →
       classifyLink socials link_text link_url = dinsert socials "Website" link_url)
    ∧ (strContains (pyLower link_url) "twitter" = false →
       strContains (pyLower link_url) "github" = false →
       strContains (pyLower link_url) "facebook" = false →
       strContains (pyLower link_url) "instagram" = false →
       strContains (pyLower link_url) "website" = false →
       strContains (pyLower link_url) "portfolio" = false →
       classifyLink socials link_text link_url = socials)
    ∧ (∀ rest, extractSocials (⟨link_text, some link_url⟩ :: rest) socials =
        extractSocials rest (classifyLink socials link_text link_url)) := by
  intro socials link_text link_url
  refine ⟨?_, ?_, ?_, fun rest => rfl⟩
  · intro hg ht _ _ _ _
    simp [classifyLink, hg, ht]
  · intro hw ht hg hf hi
    cases hw with
    | inl hw => simp [classifyLink, ht, hg, hf, hi, hw]
    | inr hp => simp [classifyLink, ht, hg, hf, hi, hp]
  · intro ht hg hf hi hw hp
    simp [classifyLink, ht, hg, hf, hi, hw, hp]

/-- C7 witness: a github link, a portfolio link and an unknown link,
classified concretely. -/
theorem c7_social_link_classification_witness :
    classifyLink [] " me " "https://GitHub.com/x" = [("GitHub", "me")]
    ∧ classifyLink [] "txt" "https://my-portfolio.example" =
        [("Website", "https://my-portfolio.example")]
    ∧ classifyLink [] "txt" "https://example.com" = [] := by
  refine ⟨?_, ?_, ?_⟩
  · rw [(c7_social_link_classification [] " me " "https://GitHub.com/x").1
      (by decide) (by decide) (by decide) (by decide) (by decide) (by decide)]
    rfl
  · rw [(c7_social_link_classification [] "txt" "https://my-portfolio.example").2.1
      (Or.inr (by decide)) (by decide) (by decide) (by decide) (by decide)]
    rfl
  · exact (c7_social_link_classification [] "txt" "https://example.com").2.2.1
      (by decide) (by decide) (by decide) (by decide) (by decide) (by decide)

/-- C8: an entry missing its required key field contributes no entry to
its mapping — experience needs both organization and role, education the
institution, certification both name and issuer, projects the title — and
for education and projects a missing optional half behaves as the empty
string. -/
theorem c8_required_key_fields :
    ∀ (d : Dict),
      (∀ (pre post : List ExperienceItem) (r : Option String),
        expFold (pre ++ ⟨none, r⟩ :: post) d = expFold (pre ++ post) d)
      ∧ (∀ (pre post : List ExperienceItem) (c : Option String),
        expFold (pre ++ ⟨c, none⟩ :: post) d = expFold (pre ++ post) d)
      ∧ (∀ (pre post : List EducationItem) (dg : Option String),
        eduFold (pre ++ ⟨none, dg⟩ :: post) d = eduFold (pre ++ post) d)
      ∧ (∀ (pre post : List CertItem) (iss : Option String),
        certFold (pre ++ ⟨none, iss⟩ :: post) d = certFold (pre ++ post) d)
      ∧ (∀ (pre post : List CertItem) (n : Option String),
        certFold (pre ++ ⟨n, none⟩ :: post) d = certFold (pre ++ post) d)
      ∧ (∀ (pre post : List ProjectItem) (ds : Option String),
        projFold (pre ++ ⟨none, ds⟩ :: post) d = projFold (pre ++ post) d)
      ∧ (∀ (pre post : List EducationItem) (sc : String),
        eduFold (pre ++ ⟨some sc, none⟩ :: post) d =
          eduFold (pre ++ ⟨some sc, some ""⟩ :: post) d)
      ∧ (∀ (pre post : List ProjectItem) (t : String),
        projFold (pre ++ ⟨some t, none⟩ :: post) d =
          projFold (pre ++ ⟨some t, some ""⟩ :: post) d) := by
  intro d
  refine ⟨?_, ?_, ?_, ?_, ?_, ?_, ?_, ?_⟩
  · intro pre post r
    rw [expFold_append, expFold_append]
    cases r <;> rfl
  · intro pre post c
    rw [expFold_append, expFold_append]
    cases c <;> rfl
  · intro pre post dg
    rw [eduFold_append, eduFold_append]
    cases dg <;> rfl
  · intro pre post iss
    rw [certFold_append, certFold_append]
    cases iss <;> rfl
  · intro pre post n
    rw [certFold_append, certFold_append]
    cases n <;> rfl
  · intro pre post ds
    rw [projFold_append, projFold_append]
    cases ds <;> rfl
  · intro pre post sc
    rw [eduFold_append, eduFold_append]
    rfl
  · intro pre post t
    rw [projFold_append, projFold_append]
    rfl

/-- C9: within one extractor's mapping, a later entry with the same key
overwrites an earlier one — the value looked up is always the last
contributing entry's value in document order. -/
theorem c9_duplicate_keys_last_wins :
    ∀ (items : List ExperienceItem) (k : String),
      dget (expFold items []) k = lastSeenValue (expContribs items) k := by
  intro items k
  rw [expFold_eq_foldl, dget_foldl_dinsert]
  cases hf : (expContribs items).reverse.find? (fun p => p.1 == k) with
  | some p => simp [lastSeenValue, hf]
  | none => simp [lastSeenValue, hf, dget]

/-- C10: extraction is deterministic over a fixed snapshot — re-running
scrape_profile with the post-run login flag and the same environment
yields the same record, and any two sessions over equal snapshots and
equal page behavior yield the same record regardless of login state. -/
theorem c10_extraction_deterministic :
    (∀ (l : Bool) (env : ScrapeEnv) (url : String),
       (scrape_profile_run (scrape_profile_run l env url).2.1 env url).1 =
         (scrape_profile_run l env url).1)
    ∧ (∀ (l l2 : Bool) (env env2 : ScrapeEnv) (url : String),
       (l || env.loginSucceeds) = true → (l2 || env2.loginSucceeds) = true →
       env2.soup1 = env.soup1 → env2.soup2 = env.soup2 →
       env2.pageLoads = env.pageLoads → env2.midFault = env.midFault →
       (scrape_profile_run l2 env2 url).1 = (scrape_profile_run l env url).1) := by
  constructor
  · intro l env url
    rw [scrape_run_state]
    cases l with
    | true => rfl
    | false =>
      cases hls : env.loginSucceeds with
      | false => rfl
      | true =>
        simp only [Bool.false_or]
        rw [scrape_run_ok true env url (by simp), scrape_run_ok false env url (by simp [hls])]
  · intro l l2 env env2 url h h2 hs1 hs2 hpl hmf
    rw [scrape_run_ok l env url h, scrape_run_ok l2 env2 url h2]
    simp only [bodyResult, hs1, hs2, hpl, hmf]

/-- C10 witness: a not-yet-logged-in run and a logged-in run over the same
environment return the same record. -/
theorem c10_extraction_deterministic_witness :
    (scrape_profile_run false envPreExpansion "u").1 =
      (scrape_profile_run true envPreExpansion "u").1 :=
  c10_extraction_deterministic.2 true false envPreExpansion envPreExpansion "u"
    (by decide) (by decide) rfl rfl rfl rfl

end Scraper
